import Mathlib

/-!
Verification development for the daily field-log analyzer
(`internal/analyzer/analyzer.go`).

The Go source is shallowly embedded: each definition below transcribes the
correspondingly named Go function.  Machine integers are modelled as
`Int`/`Nat` (the analyzer only counts upwards and subtracts timestamps,
so no overflow is reachable for realistic logs), Go strings as Lean
`String` (sequences of characters; the source only slices at ASCII
boundaries on the paths modelled here), `nil`-able values as `Option`,
Go maps as insertion-ordered association lists, and `time.Time` as an
absolute count of milliseconds with the local zone fixed (offsets cancel
in every difference the analyzer takes).  `float64` appears only in the
unique-payload ratio and the latency average; both are modelled in exact
arithmetic (`ℚ` resp. truncated integer division) and noted in place.
-/

namespace Analyzer

/-! ### Character and string helpers (models of the `strings` package) -/

/-- ASCII lower-casing of one character, the identity elsewhere; agrees with
Go's `unicode.ToLower` on every character the analyzer matches against. -/
def lowerChar (c : Char) : Char :=
  if 'A' ≤ c ∧ c ≤ 'Z' then Char.ofNat (c.toNat + 32) else c

/-- ASCII upper-casing of one character, the identity elsewhere. -/
def upperChar (c : Char) : Char :=
  if 'a' ≤ c ∧ c ≤ 'z' then Char.ofNat (c.toNat - 32) else c

def lowerStr (s : String) : String := String.mk (s.toList.map lowerChar)

def upperStr (s : String) : String := String.mk (s.toList.map upperChar)

/-- Containment of a substring, Go's `strings.Contains`. -/
def containsCh : List Char → List Char → Bool
  | _, [] => true
  | [], _ :: _ => false
  | c :: rest, needle => List.isPrefixOf needle (c :: rest) || containsCh rest needle

def strContains (s sub : String) : Bool := containsCh s.toList sub.toList

/-- Index of the first occurrence of a substring, Go's `strings.Index`. -/
def idxOfCh : List Char → List Char → Option Nat
  | _, [] => some 0
  | [], _ :: _ => none
  | c :: rest, needle =>
      if List.isPrefixOf needle (c :: rest) then some 0
      else (idxOfCh rest needle).map (· + 1)

/-- Characters Go's `strings.TrimLeft(line, " \t")` removes. -/
def isBlankChar (c : Char) : Bool := c = ' ' || c = '\t'

def trimLeftWS (s : String) : String := String.mk (s.toList.dropWhile isBlankChar)

/-- White space in the sense of Go's `unicode.IsSpace` restricted to the
code points that can reach the analyzer's trimming sites. -/
def isSpaceChar (c : Char) : Bool :=
  c = ' ' || c = '\t' || c = '\n' || c = '\r' ||
  c = Char.ofNat 0x0B || c = Char.ofNat 0x0C ||
  c = Char.ofNat 0x85 || c = Char.ofNat 0xA0

def trimEndsBy (p : Char → Bool) (l : List Char) : List Char :=
  ((l.dropWhile p).reverse.dropWhile p).reverse

/-- Go's `strings.TrimSpace`. -/
def trimSpace (l : List Char) : List Char := trimEndsBy isSpaceChar l

/-- Cutset of Go's `strings.Trim(payload, "()[]{} ")`. -/
def isBracketChar (c : Char) : Bool :=
  c = '(' || c = ')' || c = '[' || c = ']' || c = '{' || c = '}' || c = ' '

/-- Helper of `fieldsBy`; `cur` holds the characters of the current field in
reverse. -/
def fieldsByAux (p : Char → Bool) (cur : List Char) : List Char → List (List Char)
  | [] => if cur.isEmpty then [] else [cur.reverse]
  | c :: rest =>
      if p c then
        if cur.isEmpty then fieldsByAux p [] rest
        else cur.reverse :: fieldsByAux p [] rest
      else fieldsByAux p (c :: cur) rest

/-- Splitting on a character predicate, dropping empty fields; Go's
`strings.FieldsFunc` (and `strings.Fields` with the space predicate). -/
def fieldsBy (p : Char → Bool) (l : List Char) : List (List Char) :=
  fieldsByAux p [] l

/-- Go's `strings.TrimPrefix(s, "0x")` on a character list. -/
def dropHexMark (l : List Char) : List Char :=
  if List.isPrefixOf ['0', 'x'] l then l.drop 2 else l

/-! ### Timestamps

`parseLineTime` reads the fixed-width layout `2006-01-02 15:04:05.000`.
A parsed time is modelled as the absolute number of milliseconds since
0000-03-01 of the (fixed) local zone, computed from the civil fields by
the standard days-from-civil formula; the zero `time.Time` corresponds
to `timeZero` below.  Differences of parsed times are exactly the
millisecond differences Go's `Sub` reports. -/

def isDigitChar (c : Char) : Bool := '0' ≤ c ∧ c ≤ '9'

def digitVal (c : Char) : Nat := c.toNat - '0'.toNat

def digitsVal (l : List Char) : Nat := l.foldl (fun a c => a * 10 + digitVal c) 0

def isLeapYear (y : Nat) : Bool := y % 4 = 0 && (y % 100 ≠ 0 || y % 400 = 0)

def daysInMonth (y m : Nat) : Nat :=
  if m = 2 then (if isLeapYear y then 29 else 28)
  else if m = 4 || m = 6 || m = 9 || m = 11 then 30
  else 31

/-- Days since 0000-03-01 for a civil date (valid for every year ≥ 0). -/
def daysFromCivil (y m d : Nat) : Int :=
  let yy : Int := (y : Int) - (if m ≤ 2 then 1 else 0)
  let era : Int := Int.fdiv yy 400
  let yoe : Int := yy - era * 400
  let mp : Int := if m > 2 then (m : Int) - 3 else (m : Int) + 9
  let doy : Int := Int.fdiv (153 * mp + 2) 5 + (d : Int) - 1
  let doe : Int := yoe * 365 + Int.fdiv yoe 4 - Int.fdiv yoe 100 + doy
  era * 146097 + doe

/-- Absolute milliseconds of a civil timestamp. -/
def civilMillis (y mo d h mi s ms : Nat) : Int :=
  daysFromCivil y mo d * 86400000 + (h : Int) * 3600000 + (mi : Int) * 60000 +
    (s : Int) * 1000 + (ms : Int)

/-- The zero `time.Time` (0001-01-01 00:00:00). -/
def timeZero : Int := civilMillis 1 1 1 0 0 0 0

/-- Validating parse of the 23-character layout `2006-01-02 15:04:05.000`,
matching what Go's `time.ParseInLocation` accepts for this layout. -/
def parseStamp (cs : List Char) : Option Int :=
  match cs with
  | [y1, y2, y3, y4, s1, m1, m2, s2, d1, d2, s3, h1, h2, s4, i1, i2, s5, c1, c2, s6, f1, f2, f3] =>
      if (isDigitChar y1 && isDigitChar y2 && isDigitChar y3 && isDigitChar y4 &&
          isDigitChar m1 && isDigitChar m2 && isDigitChar d1 && isDigitChar d2 &&
          isDigitChar h1 && isDigitChar h2 && isDigitChar i1 && isDigitChar i2 &&
          isDigitChar c1 && isDigitChar c2 && isDigitChar f1 && isDigitChar f2 &&
          isDigitChar f3 &&
          (s1 = '-') && (s2 = '-') && (s3 = ' ') && (s4 = ':') && (s5 = ':') &&
          (s6 = '.')) then
        let y := digitsVal [y1, y2, y3, y4]
        let mo := digitsVal [m1, m2]
        let d := digitsVal [d1, d2]
        let h := digitsVal [h1, h2]
        let mi := digitsVal [i1, i2]
        let s := digitsVal [c1, c2]
        let f := digitsVal [f1, f2, f3]
        if 1 ≤ mo && mo ≤ 12 && 1 ≤ d && d ≤ daysInMonth y mo &&
            h ≤ 23 && mi ≤ 59 && s ≤ 59 then
          some (civilMillis y mo d h mi s f)
        else none
      else none
  | _ => none

/-- Transcribes `parseLineTime`: both the raw and the blank-trimmed line must
be at least 23 characters long, and the first 23 trimmed characters must parse
in the fixed layout. -/
def parseLineTime (line : String) : Option Int :=
  if line.toList.length < 23 then none
  else
    let trimmed := (trimLeftWS line).toList
    if trimmed.length < 23 then none
    else parseStamp (trimmed.take 23)

/-! ### Data model (the exported Go structs; zero values as field defaults) -/

structure StatusThresholds where
  errorTimeout : Int := 0
  errorNoResponse : Int := 0
  errorZeroData : Int := 0
  errorDuplicates : Int := 0
  warningTimeout : Int := 0
  warningNoResponse : Int := 0
  warningZeroData : Int := 0
  warningDuplicates : Int := 0
deriving DecidableEq

structure Config where
  siteID : String := ""
  deviceID : String := ""
  outboxDir : String := ""
  logRoot : String := ""
  includeGlobs : List String := []
  excludeDirs : List String := []
  duplicateRunThreshold : Int := 0
  fallbackToLatestFile : Bool := false
  debug : Bool := false
  delayThresholdMs : Int := 0
  delayMaxGapLines : Int := 0
  delayThresholdByTypeMs : List (String × Int) := []
  statusThresholds : StatusThresholds := {}
deriving DecidableEq

structure ResponseTime where
  minMs : Option Int := none
  avgMs : Option Int := none
  maxMs : Option Int := none
  maxHuman : String := ""
deriving DecidableEq

structure WLSValue where
  value : Int
  count : Nat
deriving DecidableEq

/-- Metrics of one sensor.  The Go struct stores `LastRcvAt` and `TimeRange`
as RFC3339 strings whose zero value is the empty string; they are modelled
as `Option` of the underlying instants (`none` = empty string), which the
finalizer populates exactly when the source writes a non-empty string. -/
structure Metrics where
  lines : Nat := 0
  timeout : Nat := 0
  noResponse : Nat := 0
  zeroData : Nat := 0
  duplicates : Nat := 0
  pairsTotal : Nat := 0
  missingTotal : Nat := 0
  delayedSamples : Nat := 0
  lastRcvAt : Option Int := none
  timeRange : Option (Int × Int) := none
  sampleCount : Nat := 0
  responseTime : ResponseTime := {}
  delayThresholdMs : Int := 0
  delayMaxGapLines : Int := 0
  uniqueRatioPct : Option ℚ := none
  wlsLastValueCm : Option Int := none
  wlsMinValueCm : Option Int := none
  wlsMaxValueCm : Option Int := none
  wlsTopValues : List WLSValue := []
  totalPayloads : Nat := 0
  uniquePayloads : Nat := 0
deriving DecidableEq

structure Examples where
  firstTimeoutLine : String := ""
  firstNoResponseLine : String := ""
  firstZeroDataLine : String := ""
  topDuplicatePayload : String := ""
  note : String := ""
deriving DecidableEq

structure SensorResult where
  sensorID : String := ""
  sensorType : String := ""
  status : String := ""
  metrics : Metrics := {}
  examples : Examples := {}
deriving DecidableEq

structure TopIssue where
  type : String
  sensorID : String
  count : Nat
deriving DecidableEq

structure Summary where
  siteID : String
  deviceID : String
  date : String
  generatedAt : String
  logRoot : String
  sensors : List SensorResult
  topIssues : List TopIssue
deriving DecidableEq

/-- Per-sensor running state (`SensorState` in the source).  `WLSCounts` is a
Go map `int → int`; it is modelled as an insertion-ordered association list. -/
structure SensorState where
  pendingSentAt : Int := timeZero
  pendingLine : Int := 0
  hasPending : Bool := false
  latencies : List Int := []
  lastRcvAt : Int := timeZero
  timeRangeStart : Int := timeZero
  timeRangeEnd : Int := timeZero
  hasTimeRange : Bool := false
  sndCount : Nat := 0
  rcvCount : Nat := 0
  eventCount : Nat := 0
  wlsCounts : List (Int × Nat) := []
  wlsLast : Option Int := none
  wlsMin : Option Int := none
  wlsMax : Option Int := none
deriving DecidableEq

/-! ### Small pure helpers of the analyzer -/

/-- Transcribes `normalizeDatePrefix` (the `error` return is `none`):
an 8-character date token is reshaped as `YYYY-MM-DD`, anything else is
rejected.  No calendar validation happens here. -/
def normalizeDate (date : String) : Option String :=
  if date.toList.length ≠ 8 then none
  else
    some (String.mk (date.toList.take 4) ++ "-" ++
      String.mk ((date.toList.drop 4).take 2) ++ "-" ++
      String.mk (date.toList.drop 6))

/-- The date acceptance gate of `AnalyzeDaily` (lines 116–130): an empty
date errors out first, then `normalizeDatePrefix` must succeed. -/
def dateAccepted (date : String) : Bool :=
  if date = "" then false else (normalizeDate date).isSome

/-- Transcribes `hasNoResponse`. -/
def hasNoResponse (line : String) : Bool :=
  let lower := lowerStr line
  strContains lower "no response" || strContains lower "응답없음" ||
    strContains lower "응답 없음"

/-- Transcribes `extractPayload`: everything after the first (case-blind)
`rcv:` marker, space-trimmed; `none` when the marker is absent or the
remainder is empty. -/
def extractPayload (line : String) : Option String :=
  match idxOfCh (lowerStr line).toList ['r', 'c', 'v', ':'] with
  | none => none
  | some idx =>
      let payload := trimSpace (line.toList.drop (idx + 4))
      if payload.isEmpty then none else some (String.mk payload)

/-- Transcribes `isZeroPayload`. -/
def isZeroPayload (payload : String) : Bool :=
  let clean := trimEndsBy isBracketChar payload.toList
  let clean := clean.map fun c => if c = ',' then ' ' else c
  let parts := fieldsBy isSpaceChar clean
  if parts.isEmpty then false
  else parts.all fun part =>
    (trimEndsBy (· = '0') (dropHexMark (part.map lowerChar))).isEmpty

/-- Transcribes `calculateRatio`; the Go `float64` arithmetic is modelled
exactly in `ℚ` (all ratios reachable here are small integers over small
integers, far inside `float64`'s exact range). -/
def calculateRatio (unique total : Nat) : Option ℚ :=
  if total = 0 then none else some ((unique : ℚ) / (total : ℚ) * 100)

/-- Transcribes `topDuplicatePayload`.  The Go code ranges over a map, whose
iteration order is unspecified; the model takes the entry list explicitly
(the pipeline passes insertion order) and keeps the first entry that
strictly exceeds the running maximum, exactly as the source loop does. -/
def topDuplicatePayload (counts : List (String × Nat)) : String :=
  (counts.foldl
    (fun acc e => if e.2 > acc.2 then (e.1, e.2) else acc) ("", 0)).1

/-- Increment of a payload in the counts map, keeping insertion order. -/
def bumpCount (counts : List (String × Nat)) (k : String) : List (String × Nat) :=
  match counts with
  | [] => [(k, 1)]
  | (k', n) :: rest => if k' = k then (k', n + 1) :: rest else (k', n) :: bumpCount rest k

/-- Lookup in the payload-counts map (Go map indexing, default 0). -/
def countOf (counts : List (String × Nat)) (k : String) : Nat :=
  match counts with
  | [] => 0
  | (k', n) :: rest => if k' = k then n else countOf rest k

/-- Increment of a decoded WLS value in the histogram. -/
def bumpWLS (counts : List (Int × Nat)) (k : Int) : List (Int × Nat) :=
  match counts with
  | [] => [(k, 1)]
  | (k', n) :: rest => if k' = k then (k', n + 1) :: rest else (k', n) :: bumpWLS rest k

/-- Transcribes `withDefaultThresholds`: every zero-valued field is replaced
by its default (a `nil` per-type map just becomes the empty map).  The Go
code applies the defaults through a sequence of per-field `if` statements;
since each one reads exactly the field it sets, they are transcribed as one
parallel record update. -/
def withDefaultThresholds (cfg : Config) : Config :=
  let st := cfg.statusThresholds
  { cfg with
    statusThresholds :=
      { errorTimeout := if st.errorTimeout = 0 then 3 else st.errorTimeout
        errorNoResponse := if st.errorNoResponse = 0 then 3 else st.errorNoResponse
        errorZeroData := if st.errorZeroData = 0 then 10 else st.errorZeroData
        errorDuplicates := if st.errorDuplicates = 0 then 50 else st.errorDuplicates
        warningTimeout := if st.warningTimeout = 0 then 1 else st.warningTimeout
        warningNoResponse := if st.warningNoResponse = 0 then 1 else st.warningNoResponse
        warningZeroData := if st.warningZeroData = 0 then 1 else st.warningZeroData
        warningDuplicates := if st.warningDuplicates = 0 then 10 else st.warningDuplicates }
    delayThresholdMs := if cfg.delayThresholdMs = 0 then 2000 else cfg.delayThresholdMs
    delayMaxGapLines := if cfg.delayMaxGapLines = 0 then 5 else cfg.delayMaxGapLines }

/-- Transcribes `delayThresholdMs`: the per-type override (keyed by the
upper-cased sensor type) if present, the global default otherwise. -/
def delayThresholdMs (cfg : Config) (sensorType : String) : Int :=
  if sensorType ≠ "" then
    match cfg.delayThresholdByTypeMs.lookup (upperStr sensorType) with
    | some value => value
    | none => cfg.delayThresholdMs
  else cfg.delayThresholdMs

/-- Transcribes `parseUint(part, base, 8)`: digits of the given base only,
value below 256, at least one digit. -/
def parseUintDigits (base : Nat) (l : List Char) : Option Nat :=
  if l.isEmpty then none
  else
    l.foldl
      (fun acc c =>
        match acc with
        | none => none
        | some v =>
            let d : Option Nat :=
              if isDigitChar c then some (digitVal c)
              else if 'a' ≤ c ∧ c ≤ 'f' then some (c.toNat - 'a'.toNat + 10)
              else if 'A' ≤ c ∧ c ≤ 'F' then some (c.toNat - 'A'.toNat + 10)
              else none
            match d with
            | none => none
            | some d => if d < base ∧ v * base + d < 256 then some (v * base + d) else none)
      (some 0)

/-- Transcribes `parsePayloadBytes`. -/
def parsePayloadBytes (payload : String) : Option (List Nat) :=
  let clean := trimEndsBy isBracketChar payload.toList
  if clean.isEmpty then none
  else
    let parts := fieldsBy (fun r => r = ',' || r = ' ' || r = '\t') clean
    if parts.isEmpty then none
    else
      let step : Option (List Nat) → List Char → Option (List Nat) :=
        fun acc part =>
          match acc with
          | none => none
          | some bytes =>
              let part := trimSpace (dropHexMark (part.map lowerChar))
              if part.isEmpty then some bytes
              else
                let base := if part.any (fun c => 'a' ≤ c ∧ c ≤ 'f') ∨ part.length = 2 then 16 else 10
                match parseUintDigits base part with
                | none => none
                | some v => some (bytes ++ [v])
      match parts.foldl step (some []) with
      | none => none
      | some bytes => if bytes.isEmpty then none else some bytes

/-- Transcribes `parseWLSValue`: at least 6 decoded bytes, value =
`bytes[4] << 8 + bytes[5]`.  (No 11-byte frame check, no start/end marker
check, no 0–96 bounds check appears in the source.) -/
def parseWLSValue (payload : String) : Option Int :=
  match parsePayloadBytes payload with
  | none => none
  | some bytes =>
      if bytes.length < 6 then none
      else some ((bytes.get? 4).getD 0 * 256 + (bytes.get? 5).getD 0 : Nat)

/-- Transcribes `updateTimeRange`. -/
def updateTimeRange (state : SensorState) (value : Int) : SensorState :=
  if state.hasTimeRange then
    let state := if value < state.timeRangeStart then { state with timeRangeStart := value } else state
    if value > state.timeRangeEnd then { state with timeRangeEnd := value } else state
  else
    { state with timeRangeStart := value, timeRangeEnd := value, hasTimeRange := true }

/-! ### The per-line state machine (`updateMetrics`)

The Go function threads `(metrics, examples, payloadCounts, lastPayload,
consecutive, state)` through one call per surviving line.  That tuple is
packaged as `UpdSt`, and each block of the function body becomes one
`step…` definition, applied in source order. -/

structure UpdSt where
  metrics : Metrics := {}
  examples : Examples := {}
  counts : List (String × Nat) := []
  lastPayload : String := ""
  consecutive : Int := 0
  state : SensorState := {}
deriving DecidableEq

/-- Lines 463–468: line counter and lazily initialised per-sensor
threshold fields. -/
def stepCounters (cfg : Config) (sensorType : String) (u : UpdSt) : UpdSt :=
  let m := u.metrics
  let m := { m with lines := m.lines + 1 }
  let m :=
    if m.delayThresholdMs = 0 then
      { m with delayThresholdMs := delayThresholdMs cfg sensorType }
    else m
  let m :=
    if m.delayMaxGapLines = 0 then { m with delayMaxGapLines := cfg.delayMaxGapLines }
    else m
  { u with metrics := m }

/-- Lines 473–478: the timeout classifier. -/
def stepTimeout (line lower : String) (u : UpdSt) : UpdSt :=
  if strContains lower "timeout" then
    { u with
      metrics := { u.metrics with timeout := u.metrics.timeout + 1 }
      examples :=
        if u.examples.firstTimeoutLine = "" then
          { u.examples with firstTimeoutLine := line }
        else u.examples }
  else u

/-- Lines 479–484: the no-response classifier. -/
def stepNoResp (line : String) (u : UpdSt) : UpdSt :=
  if hasNoResponse line then
    { u with
      metrics := { u.metrics with noResponse := u.metrics.noResponse + 1 }
      examples :=
        if u.examples.firstNoResponseLine = "" then
          { u.examples with firstNoResponseLine := line }
        else u.examples }
  else u

/-- Lines 486–496: a timestamped send marker; a still-pending send is
counted as missing before being overwritten. -/
def stepSnd (t? : Option Int) (lower : String) (u : UpdSt) : UpdSt :=
  match t? with
  | none => u
  | some t =>
      if strContains lower "snd:" then
        let st := { u.state with eventCount := u.state.eventCount + 1 }
        let st := updateTimeRange st t
        let m :=
          if st.hasPending then { u.metrics with missingTotal := u.metrics.missingTotal + 1 }
          else u.metrics
        let st :=
          { st with
            pendingSentAt := t
            pendingLine := (m.lines : Int)
            hasPending := true
            sndCount := st.sndCount + 1 }
        { u with metrics := m, state := st }
      else u

/-- Lines 498–514: a timestamped receive marker; while a send is pending it
is paired, producing a latency sample and possibly a delayed sample. -/
def stepRcv (cfg : Config) (sensorType : String) (t? : Option Int) (lower : String)
    (u : UpdSt) : UpdSt :=
  match t? with
  | none => u
  | some t =>
      if strContains lower "rcv:" then
        let st := { u.state with eventCount := u.state.eventCount + 1 }
        let st := updateTimeRange st t
        let st := { st with lastRcvAt := t, rcvCount := st.rcvCount + 1 }
        if st.hasPending then
          let latency := t - st.pendingSentAt
          let lineGap := (u.metrics.lines : Int) - st.pendingLine
          let m := { u.metrics with pairsTotal := u.metrics.pairsTotal + 1 }
          let thr := delayThresholdMs cfg sensorType
          let m :=
            if latency ≥ thr ∨ lineGap > cfg.delayMaxGapLines then
              { m with delayedSamples := m.delayedSamples + 1 }
            else m
          let st := { st with latencies := st.latencies ++ [latency], hasPending := false }
          { u with metrics := m, state := st }
        else { u with state := st }
      else u

/-- Lines 539–550: the WLS block of the payload branch — decode the payload
and, on success, update histogram and last/min/max. -/
def stepWLS (sensorType payload : String) (state : SensorState) : SensorState :=
  if lowerStr sensorType = "wls" then
    match parseWLSValue payload with
    | some value =>
        let st := { state with wlsCounts := bumpWLS state.wlsCounts value }
        let st := { st with wlsLast := some value }
        let st :=
          match st.wlsMin with
          | none => { st with wlsMin := some value }
          | some mn => if value < mn then { st with wlsMin := some value } else st
        match st.wlsMax with
        | none => { st with wlsMax := some value }
        | some mx => if value > mx then { st with wlsMax := some value } else st
    | none => state
  else state

/-- Lines 516–554: payload extraction, total/unique/zero-data counting, the
duplicate-run tracker and the WLS decoder; a payload-free line resets the
duplicate chain. -/
def stepPayload (cfg : Config) (sensorType line trimmed : String) (u : UpdSt) : UpdSt :=
  match extractPayload trimmed with
  | some payload =>
      let m := { u.metrics with totalPayloads := u.metrics.totalPayloads + 1 }
      let counts := bumpCount u.counts payload
      let m :=
        if countOf counts payload = 1 then { m with uniquePayloads := m.uniquePayloads + 1 }
        else m
      let m :=
        if isZeroPayload payload then { m with zeroData := m.zeroData + 1 } else m
      let e :=
        if isZeroPayload payload ∧ u.examples.firstZeroDataLine = "" then
          { u.examples with firstZeroDataLine := line }
        else u.examples
      let dup : String × Int × Metrics :=
        if payload = u.lastPayload then
          let consecutive := u.consecutive + 1
          if consecutive ≥ cfg.duplicateRunThreshold then
            (u.lastPayload, consecutive, { m with duplicates := m.duplicates + 1 })
          else (u.lastPayload, consecutive, m)
        else (payload, 1, m)
      { u with
        metrics := dup.2.2, examples := e, counts := counts,
        lastPayload := dup.1, consecutive := dup.2.1,
        state := stepWLS sensorType payload u.state }
  | none => { u with lastPayload := "", consecutive := 0 }

/-- Transcribes `updateMetrics` as the source-ordered composition of the
block steps above. -/
def updateMetrics (cfg : Config) (sensorType line : String) (u : UpdSt) : UpdSt :=
  let u := stepCounters cfg sensorType u
  let trimmed := trimLeftWS line
  let lower := lowerStr trimmed
  let t? := parseLineTime trimmed
  let u := stepTimeout line lower u
  let u := stepNoResp line u
  let u := stepSnd t? lower u
  let u := stepRcv cfg sensorType t? lower u
  stepPayload cfg sensorType line trimmed u

/-! ### Finalization -/

/-- Comparator of `topWLSValues`' `sort.Slice` call: larger count before
smaller, ties by ascending decoded value. -/
def wlsBefore (a b : WLSValue) : Prop :=
  b.count < a.count ∨ (a.count = b.count ∧ a.value < b.value)

instance : DecidableRel wlsBefore := fun a b => by unfold wlsBefore; infer_instance

/-- Transcribes `topWLSValues`: the histogram entries sorted by the
comparator above, truncated to 5.  (Distinct entries never tie in both
fields, so the sort order is unique and map iteration order is
irrelevant here.) -/
def topWLSValues (counts : List (Int × Nat)) : List WLSValue :=
  (List.insertionSort wlsBefore (counts.map fun e => ⟨e.1, e.2⟩)).take 5

/-- Transcribes `formatDuration`.  Go renders the sub-minute case with
`%.1f`, whose round-to-nearest tie behaviour on the binary value is
modelled as round-half-up of the exact decimal; the two agree except
possibly at exact `.x5` second midpoints. -/
def formatDuration (ms : Int) : String :=
  if ms < 1000 then toString ms ++ "ms"
  else
    let seconds := Int.tdiv ms 1000
    if seconds < 60 then
      let tenths := Int.tdiv (ms + 50) 100
      toString (Int.tdiv tenths 10) ++ "." ++ toString (Int.tmod tenths 10) ++ "s"
    else
      toString (Int.tdiv seconds 60) ++ "m " ++ toString (Int.tmod seconds 60) ++ "s"

/-- Transcribes `calculateResponseTime`.  The average is
`int64(float64(sum)/float64(len))` in Go, i.e. the exact quotient
truncated toward zero, modelled as `Int.tdiv`; sums reachable here are far
inside `float64`'s exact integer range. -/
def calculateResponseTime (latencies : List Int) : ResponseTime :=
  match List.insertionSort (· ≤ ·) latencies with
  | [] => {}
  | x :: rest =>
      let sorted := x :: rest
      let mx := sorted.getLastD 0
      let sum := sorted.foldl (· + ·) 0
      let avg := Int.tdiv sum (sorted.length : Int)
      { minMs := some x, avgMs := some avg, maxMs := some mx,
        maxHuman := formatDuration mx }

/-- Lines 629–634 of `finalizeMetrics`: a still-pending send becomes a final
missing event, and a non-zero last receive instant is published. -/
def finalizePending (state : SensorState) (m : Metrics) : Metrics :=
  let m := if state.hasPending then { m with missingTotal := m.missingTotal + 1 } else m
  if state.lastRcvAt ≠ timeZero then { m with lastRcvAt := some state.lastRcvAt } else m

/-- Lines 635–644 of `finalizeMetrics`: the covered time range, or the
no-timestamps note when none was collected. -/
def finalizeRange (state : SensorState) (m : Metrics) (e : Examples) :
    Metrics × Examples :=
  if state.hasTimeRange then
    ({ m with timeRange := some (state.timeRangeStart, state.timeRangeEnd) }, e)
  else
    (m, if e.note = "" then { e with note := "no timestamps found for date" } else e)

/-- Lines 645–649 of `finalizeMetrics`: sample count, unique ratio, top
duplicate payload, latency statistics and the gap setting. -/
def finalizeStats (state : SensorState) (counts : List (String × Nat)) (cfg : Config)
    (m : Metrics) (e : Examples) : Metrics × Examples :=
  let m := { m with sampleCount := state.eventCount }
  let m := { m with uniqueRatioPct := calculateRatio m.uniquePayloads m.totalPayloads }
  let m := { m with responseTime := calculateResponseTime state.latencies }
  let m := { m with delayMaxGapLines := cfg.delayMaxGapLines }
  (m, { e with topDuplicatePayload := topDuplicatePayload counts })

/-- Lines 650–655 of `finalizeMetrics`: the decoded-value block, published
only when the histogram is non-empty. -/
def finalizeWLS (state : SensorState) (m : Metrics) : Metrics :=
  if state.wlsCounts.length > 0 then
    { m with
      wlsLastValueCm := state.wlsLast
      wlsMinValueCm := state.wlsMin
      wlsMaxValueCm := state.wlsMax
      wlsTopValues := topWLSValues state.wlsCounts }
  else m

/-- Lines 656–665 of `finalizeMetrics`: the no-payload and no-receive notes,
each set only when no earlier note exists. -/
def finalizeNotes (m : Metrics) (e : Examples) : Examples :=
  let e :=
    if m.totalPayloads = 0 ∧ e.note = "" then { e with note := "no payload for date" }
    else e
  if m.pairsTotal = 0 ∧ m.lastRcvAt = none ∧ e.note = "" then
    { e with note := "no rcv events found for date; cannot compute response time" }
  else e

/-- Transcribes `finalizeMetrics` (lines 628–667) as the source-ordered
composition of the blocks above. -/
def finalizeMetrics (metrics : Metrics) (examples : Examples) (state : SensorState)
    (counts : List (String × Nat)) (cfg : Config) : Metrics × Examples :=
  let m := finalizePending state metrics
  let me := finalizeRange state m examples
  let me := finalizeStats state counts cfg me.1 me.2
  let m := finalizeWLS state me.1
  (m, finalizeNotes m me.2)

/-- The per-line loop shared by `analyzeLines` and `analyzeSensorDir`: lines
not starting (after blank-trimming) with the date token are discarded,
surviving lines are fed, trimmed, to `updateMetrics`. -/
def processLines (cfg : Config) (dp sensorType : String) (lines : List String)
    (u : UpdSt) : UpdSt :=
  lines.foldl
    (fun u line =>
      let trimmed := trimLeftWS line
      if List.isPrefixOf dp.toList trimmed.toList then
        updateMetrics cfg sensorType trimmed u
      else u)
    u

/-- Transcribes `analyzeLines` (lines 442–460): defaults are applied to the
configuration, the per-line machine is run from the zero state, and the
result is finalized. -/
def analyzeLines (lines : List String) (dp sensorType : String) (cfg : Config) :
    Metrics × Examples :=
  let cfg := withDefaultThresholds cfg
  let u := processLines cfg dp sensorType lines {}
  finalizeMetrics u.metrics u.examples u.state u.counts cfg

/-! ### Cross-sensor ranking and the summary -/

/-- Comparator of `buildTopIssues`' `sort.Slice` call, read as "may stand
before": `issueBefore a b` holds exactly when the Go `less(b, a)` is false,
i.e. `a` has the larger count, or equal counts and the smaller-or-equal
sensor identifier. -/
def issueBefore (a b : TopIssue) : Prop :=
  b.count < a.count ∨ (a.count = b.count ∧ a.sensorID ≤ b.sensorID)

instance : DecidableRel issueBefore := fun a b => by unfold issueBefore; infer_instance

instance : IsTotal TopIssue issueBefore where
  total a b := by
    unfold issueBefore
    rcases lt_trichotomy a.count b.count with h | h | h
    · exact Or.inr (Or.inl h)
    · rcases le_total a.sensorID b.sensorID with h' | h'
      · exact Or.inl (Or.inr ⟨h, h'⟩)
      · exact Or.inr (Or.inr ⟨h.symm, h'⟩)
    · exact Or.inl (Or.inl h)

instance : IsTrans TopIssue issueBefore where
  trans a b c hab hbc := by
    unfold issueBefore at *
    rcases hab with h1 | ⟨h1, h1'⟩ <;> rcases hbc with h2 | ⟨h2, h2'⟩
    · exact Or.inl (h2.trans h1)
    · exact Or.inl (h2 ▸ h1)
    · exact Or.inl (h1 ▸ h2)
    · exact Or.inr ⟨h1.trans h2, h1'.trans h2'⟩

/-- The records one sensor contributes to the ranking, in source order:
one per strictly positive failure counter. -/
def perSensorIssues (result : SensorResult) : List TopIssue :=
  let m := result.metrics
  (if m.timeout > 0 then [⟨"timeout", result.sensorID, m.timeout⟩] else []) ++
  (if m.noResponse > 0 then [⟨"no_response", result.sensorID, m.noResponse⟩] else []) ++
  (if m.zeroData > 0 then [⟨"zero_data", result.sensorID, m.zeroData⟩] else []) ++
  (if m.duplicates > 0 then [⟨"duplicates", result.sensorID, m.duplicates⟩] else [])

/-- Transcribes `buildTopIssues`: flatten, sort by count descending with
ties by sensor ascending, truncate to 5.  `sort.Slice` leaves the order of
comparator-equivalent records unspecified; `insertionSort` by the
non-strict comparator is one sort satisfying its postcondition, and every
property proved below is invariant under that residual freedom. -/
def buildTopIssues (results : List SensorResult) : List TopIssue :=
  (List.insertionSort issueBefore (results.flatMap perSensorIssues)).take 5

/-- Transcribes the summary construction of `AnalyzeDaily` (lines 148–157).
`GeneratedAt` is `time.Now().Format(time.RFC3339)` in the source: the
wall-clock reading is an environment input and is passed here as `now`. -/
def mkSummary (cfg : Config) (date now : String) (results : List SensorResult) : Summary :=
  { siteID := cfg.siteID
    deviceID := cfg.deviceID
    date := date
    generatedAt := now
    logRoot := cfg.logRoot
    sensors := results
    topIssues := buildTopIssues results }

/-- Transcribes `sensorTypeFromID`. -/
def sensorTypeFromID (sensorID : String) : String :=
  let upper := (upperStr sensorID).toList
  if List.isPrefixOf "GATE".toList upper then "GATE"
  else if List.isPrefixOf "WLS".toList upper then "WLS"
  else if List.isPrefixOf "PUMP".toList upper then "PUMP"
  else if List.isPrefixOf "TEMP".toList upper then "TEMP"
  else ""

/-! ### Specification views

Small projections used to state and prove the claims; they introduce no
behaviour of their own. -/

/-- The duplicate-tracker view of the threaded state: tracked payload,
consecutive-repeat counter, duplicate-event count. -/
def dupView (u : UpdSt) : String × Int × Nat :=
  (u.lastPayload, u.consecutive, u.metrics.duplicates)

/-- One duplicate-tracker transition, as a function of the extracted
payload alone; `updateMetrics` acts on `dupView` exactly like this
(`updateMetrics_dupView` below). -/
def dupStepFn (t : Int) (payload? : Option String) (v : String × Int × Nat) :
    String × Int × Nat :=
  match payload? with
  | none => ("", 0, v.2.2)
  | some p =>
      if p = v.1 then
        if v.2.1 + 1 ≥ t then (v.1, v.2.1 + 1, v.2.2 + 1)
        else (v.1, v.2.1 + 1, v.2.2)
      else (p, 1, v.2.2)

/-- Missing-plus-paired-plus-pending: every timestamped send increments this
by exactly one and nothing else moves it. -/
def pairInv (u : UpdSt) : Nat :=
  u.metrics.missingTotal + u.metrics.pairsTotal + (if u.state.hasPending then 1 else 0)

/-- A line that opens (or overwrites) a pending send in the pipeline: it
passes the date gate and carries a parseable timestamp and the send
marker.  The conditions are exactly the ones `processLines` and
`updateMetrics` test. -/
def sendEvent (dp line : String) : Bool :=
  let trimmed := trimLeftWS line
  List.isPrefixOf dp.toList trimmed.toList &&
    (parseLineTime trimmed).isSome && strContains (lowerStr trimmed) "snd:"

/-- A concrete sensor result with all four failure counters positive (used
to exercise the top-issues ranking). -/
def sensorA : SensorResult :=
  { sensorID := "S1",
    metrics := { timeout := 8, noResponse := 7, zeroData := 6, duplicates := 5 } }

/-- A second such sensor with strictly smaller counters. -/
def sensorB : SensorResult :=
  { sensorID := "S2",
    metrics := { timeout := 4, noResponse := 3, zeroData := 2, duplicates := 1 } }

/-! ### Lemmas: the duplicate tracker -/

theorem stepCounters_dupView (cfg : Config) (sensorType : String) (u : UpdSt) :
    dupView (stepCounters cfg sensorType u) = dupView u := by
  simp only [stepCounters, dupView]
  split_ifs <;> rfl

theorem stepTimeout_dupView (line lower : String) (u : UpdSt) :
    dupView (stepTimeout line lower u) = dupView u := by
  simp only [stepTimeout, dupView]
  split_ifs <;> rfl

theorem stepNoResp_dupView (line : String) (u : UpdSt) :
    dupView (stepNoResp line u) = dupView u := by
  simp only [stepNoResp, dupView]
  split_ifs <;> rfl

theorem stepSnd_dupView (t? : Option Int) (lower : String) (u : UpdSt) :
    dupView (stepSnd t? lower u) = dupView u := by
  cases t? with
  | none => rfl
  | some t =>
      simp only [stepSnd, dupView]
      split_ifs <;> rfl

theorem stepRcv_dupView (cfg : Config) (sensorType : String) (t? : Option Int)
    (lower : String) (u : UpdSt) :
    dupView (stepRcv cfg sensorType t? lower u) = dupView u := by
  cases t? with
  | none => rfl
  | some t =>
      simp only [stepRcv, dupView]
      split_ifs <;> rfl

theorem stepPayload_dupView (cfg : Config) (sensorType line trimmed : String) (u : UpdSt) :
    dupView (stepPayload cfg sensorType line trimmed u) =
      dupStepFn cfg.duplicateRunThreshold (extractPayload trimmed) (dupView u) := by
  cases h : extractPayload trimmed with
  | none => simp only [stepPayload, h, dupStepFn, dupView]
  | some p =>
      simp only [stepPayload, h, dupStepFn, dupView]
      split_ifs <;> rfl

/-- The action of one `updateMetrics` call on the duplicate tracker is
`dupStepFn` applied to the payload extracted from the (blank-trimmed)
line. -/
theorem updateMetrics_dupView (cfg : Config) (sensorType line : String) (u : UpdSt) :
    dupView (updateMetrics cfg sensorType line u) =
      dupStepFn cfg.duplicateRunThreshold (extractPayload (trimLeftWS line)) (dupView u) := by
  simp only [updateMetrics]
  rw [stepPayload_dupView, stepRcv_dupView, stepSnd_dupView, stepNoResp_dupView,
    stepTimeout_dupView, stepCounters_dupView]

/-- Tail of an identical-payload run: from a state already tracking `p` with
counter `j`, processing `k` further copies raises the counter to `j + k` and
records one duplicate event for every intermediate counter value that
reaches the threshold. -/
theorem dup_run_tail (cfg : Config) (sensorType ℓ p : String)
    (hp : extractPayload (trimLeftWS ℓ) = some p) :
    ∀ (k : ℕ) (u : UpdSt) (j : Int) (d : ℕ), dupView u = (p, j, d) →
      dupView ((List.replicate k ℓ).foldl (fun v line => updateMetrics cfg sensorType line v) u)
        = (p, j + k,
           d + ((j + k + 1 - cfg.duplicateRunThreshold).toNat -
                (j + 1 - cfg.duplicateRunThreshold).toNat)) := by
  intro k
  induction k with
  | zero =>
      intro u j d hv
      simpa using hv
  | succ k ih =>
      intro u j d hv
      rw [List.replicate_succ, List.foldl_cons]
      have h1 : dupView (updateMetrics cfg sensorType ℓ u)
          = (p, j + 1, d + if j + 1 ≥ cfg.duplicateRunThreshold then 1 else 0) := by
        rw [updateMetrics_dupView, hp, hv]
        simp only [dupStepFn]
        split_ifs <;> simp_all
      rw [ih _ (j + 1) _ h1]
      refine Prod.ext rfl (Prod.ext ?_ ?_) <;> simp only
      · push_cast; ring
      · split_ifs at * <;> omega

/-! ### Claim C1 -/

/-- C1: the claim says a WLS payload that is not exactly 11 tokens, or whose
first/last bytes differ from the fixed start/end markers, is classified as
zero-data, excluded from the duplicate-run chain, and never updates the
decoded-value statistics or histogram.  The code has no such gate: this
theorem evaluates the pipeline at a 6-token frame (first byte 0x01, not a
start marker) repeated three times for a WLS sensor and shows that the
code counts no zero-data event, records a duplicate event (the invalid
frame extends the run), and updates the last/min/max decoded statistics
to 0x0506 = 1286 — contradicting the claim and the repository's own
documentation of the 11-byte `FA…76` frame rule. -/
theorem c1_invalid_frame_is_counted :
    ((analyzeLines ["2026-01-19 00:00:01.000 rcv: (01,02,03,04,05,06)",
        "2026-01-19 00:00:02.000 rcv: (01,02,03,04,05,06)",
        "2026-01-19 00:00:03.000 rcv: (01,02,03,04,05,06)"] "2026-01-19" "WLS"
        { duplicateRunThreshold := 3 }).1.zeroData = 0) ∧
    ((analyzeLines ["2026-01-19 00:00:01.000 rcv: (01,02,03,04,05,06)",
        "2026-01-19 00:00:02.000 rcv: (01,02,03,04,05,06)",
        "2026-01-19 00:00:03.000 rcv: (01,02,03,04,05,06)"] "2026-01-19" "WLS"
        { duplicateRunThreshold := 3 }).1.duplicates = 1) ∧
    ((analyzeLines ["2026-01-19 00:00:01.000 rcv: (01,02,03,04,05,06)",
        "2026-01-19 00:00:02.000 rcv: (01,02,03,04,05,06)",
        "2026-01-19 00:00:03.000 rcv: (01,02,03,04,05,06)"] "2026-01-19" "WLS"
        { duplicateRunThreshold := 3 }).1.wlsLastValueCm = some 1286) ∧
    ((analyzeLines ["2026-01-19 00:00:01.000 rcv: (01,02,03,04,05,06)",
        "2026-01-19 00:00:02.000 rcv: (01,02,03,04,05,06)",
        "2026-01-19 00:00:03.000 rcv: (01,02,03,04,05,06)"] "2026-01-19" "WLS"
        { duplicateRunThreshold := 3 }).1.wlsMinValueCm = some 1286) := by
  refine ⟨by decide, by decide, by decide, by decide⟩

/-! ### Claim C2 -/

/-- C2, counterexample: the claim quantifies over every threshold `T ≥ 1`,
but with `T = 1` a maximal run of `L = 1` identical valid payloads yields
`0` duplicate events, not `L − T + 1 = 1` — the counter is set to 1 on the
first line of a run without ever being compared against the threshold. -/
theorem c2_threshold_one_counterexample :
    (analyzeLines ["2026-01-19 00:00:01.000 rcv: (01)"] "2026-01-19" "GATE"
      { duplicateRunThreshold := 1 }).1.duplicates = 0 := by decide

/-- C2, amended: for every duplicate-run threshold `T ≥ 2`, processing a
maximal run of `L ≥ T` lines carrying the identical payload `p` (maximality:
the tracker was not holding `p` when the run began) adds exactly
`L − T + 1` duplicate events.  (For `T = 1` the code behaves as if `T = 2`,
since the first line of a run is never counted.) -/
theorem c2_duplicate_run_events (cfg : Config) (sensorType ℓ p : String) (u : UpdSt)
    (L : ℕ) (hT : 2 ≤ cfg.duplicateRunThreshold)
    (hL : cfg.duplicateRunThreshold ≤ (L : Int))
    (hp : extractPayload (trimLeftWS ℓ) = some p) (hne : u.lastPayload ≠ p) :
    ((((List.replicate L ℓ).foldl (fun v line => updateMetrics cfg sensorType line v)
        u).metrics.duplicates : Int))
      = u.metrics.duplicates + ((L : Int) - cfg.duplicateRunThreshold + 1) := by
  obtain ⟨k, rfl⟩ : ∃ k, L = k + 1 := ⟨L - 1, by omega⟩
  rw [List.replicate_succ, List.foldl_cons]
  have h1 : dupView (updateMetrics cfg sensorType ℓ u) = (p, 1, u.metrics.duplicates) := by
    rw [updateMetrics_dupView, hp]
    simp only [dupStepFn, dupView]
    rw [if_neg fun h => hne h.symm]
  have h2 := dup_run_tail cfg sensorType ℓ p hp k _ 1 _ h1
  have h3 : ∀ w : UpdSt, w.metrics.duplicates = (dupView w).2.2 := fun _ => rfl
  rw [h3, h2]
  simp only
  omega

/-- C2, witness: threshold 3 and a run of 4 identical payload lines from the
zero state yield `4 − 3 + 1 = 2` duplicate events. -/
theorem c2_duplicate_run_events_witness :
    ((((List.replicate 4 "2026-01-19 00:00:01.000 rcv: (01)").foldl
        (fun v line => updateMetrics { duplicateRunThreshold := 3 } "GATE" line v)
        ({} : UpdSt)).metrics.duplicates : Int)) = 2 := by
  have h := c2_duplicate_run_events { duplicateRunThreshold := 3 } "GATE"
    "2026-01-19 00:00:01.000 rcv: (01)" "(01)" {} 4
    (by decide) (by decide) (by decide) (by decide)
  exact h.trans (by decide)

/-! ### Lemmas: the pairing state machine -/

@[simp] theorem updateTimeRange_hasPending (st : SensorState) (v : Int) :
    (updateTimeRange st v).hasPending = st.hasPending := by
  simp only [updateTimeRange]; split_ifs <;> rfl

@[simp] theorem updateTimeRange_pendingSentAt (st : SensorState) (v : Int) :
    (updateTimeRange st v).pendingSentAt = st.pendingSentAt := by
  simp only [updateTimeRange]; split_ifs <;> rfl

@[simp] theorem updateTimeRange_pendingLine (st : SensorState) (v : Int) :
    (updateTimeRange st v).pendingLine = st.pendingLine := by
  simp only [updateTimeRange]; split_ifs <;> rfl

@[simp] theorem updateTimeRange_latencies (st : SensorState) (v : Int) :
    (updateTimeRange st v).latencies = st.latencies := by
  simp only [updateTimeRange]; split_ifs <;> rfl

@[simp] theorem updateTimeRange_lastRcvAt (st : SensorState) (v : Int) :
    (updateTimeRange st v).lastRcvAt = st.lastRcvAt := by
  simp only [updateTimeRange]; split_ifs <;> rfl

@[simp] theorem updateTimeRange_eventCount (st : SensorState) (v : Int) :
    (updateTimeRange st v).eventCount = st.eventCount := by
  simp only [updateTimeRange]; split_ifs <;> rfl

@[simp] theorem stepWLS_hasPending (sensorType payload : String) (st : SensorState) :
    (stepWLS sensorType payload st).hasPending = st.hasPending := by
  simp only [stepWLS]; repeat' split
  all_goals rfl

@[simp] theorem stepWLS_pendingSentAt (sensorType payload : String) (st : SensorState) :
    (stepWLS sensorType payload st).pendingSentAt = st.pendingSentAt := by
  simp only [stepWLS]; repeat' split
  all_goals rfl

@[simp] theorem stepWLS_pendingLine (sensorType payload : String) (st : SensorState) :
    (stepWLS sensorType payload st).pendingLine = st.pendingLine := by
  simp only [stepWLS]; repeat' split
  all_goals rfl

@[simp] theorem stepWLS_latencies (sensorType payload : String) (st : SensorState) :
    (stepWLS sensorType payload st).latencies = st.latencies := by
  simp only [stepWLS]; repeat' split
  all_goals rfl

@[simp] theorem stepWLS_lastRcvAt (sensorType payload : String) (st : SensorState) :
    (stepWLS sensorType payload st).lastRcvAt = st.lastRcvAt := by
  simp only [stepWLS]; repeat' split
  all_goals rfl

@[simp] theorem stepWLS_eventCount (sensorType payload : String) (st : SensorState) :
    (stepWLS sensorType payload st).eventCount = st.eventCount := by
  simp only [stepWLS]; repeat' split
  all_goals rfl

@[simp] theorem stepWLS_hasTimeRange (sensorType payload : String) (st : SensorState) :
    (stepWLS sensorType payload st).hasTimeRange = st.hasTimeRange := by
  simp only [stepWLS]; repeat' split
  all_goals rfl

theorem stepCounters_pairInv (cfg : Config) (sensorType : String) (u : UpdSt) :
    pairInv (stepCounters cfg sensorType u) = pairInv u := by
  simp only [stepCounters, pairInv]
  split_ifs <;> rfl

theorem stepTimeout_pairInv (line lower : String) (u : UpdSt) :
    pairInv (stepTimeout line lower u) = pairInv u := by
  simp only [stepTimeout, pairInv]
  split_ifs <;> rfl

theorem stepNoResp_pairInv (line : String) (u : UpdSt) :
    pairInv (stepNoResp line u) = pairInv u := by
  simp only [stepNoResp, pairInv]
  split_ifs <;> rfl

theorem stepSnd_pairInv (t? : Option Int) (lower : String) (u : UpdSt) :
    pairInv (stepSnd t? lower u) =
      pairInv u + (if t?.isSome && strContains lower "snd:" then 1 else 0) := by
  cases t? with
  | none => simp [stepSnd, pairInv]
  | some t =>
      simp only [stepSnd, pairInv, Option.isSome_some, Bool.true_and]
      split_ifs with h h' <;> simp_all <;> omega

theorem stepRcv_pairInv (cfg : Config) (sensorType : String) (t? : Option Int)
    (lower : String) (u : UpdSt) :
    pairInv (stepRcv cfg sensorType t? lower u) = pairInv u := by
  cases t? with
  | none => rfl
  | some t =>
      simp only [stepRcv, pairInv]
      split_ifs with h h' h'' <;> simp_all <;> omega

theorem stepPayload_pairInv (cfg : Config) (sensorType line trimmed : String) (u : UpdSt) :
    pairInv (stepPayload cfg sensorType line trimmed u) = pairInv u := by
  cases h : extractPayload trimmed with
  | none => simp only [stepPayload, h, pairInv]
  | some p =>
      simp only [stepPayload, h, pairInv, stepWLS_hasPending]
      split_ifs <;> rfl

theorem dropWhile_dropWhile_self (p : Char → Bool) (l : List Char) :
    (l.dropWhile p).dropWhile p = l.dropWhile p := by
  induction l with
  | nil => rfl
  | cons c rest ih =>
      by_cases h : p c
      · simp [List.dropWhile_cons, h, ih]
      · simp [List.dropWhile_cons, h]

theorem trimLeftWS_idem (s : String) : trimLeftWS (trimLeftWS s) = trimLeftWS s := by
  simp only [trimLeftWS, String.toList]
  rw [dropWhile_dropWhile_self]

/-- The action of one `updateMetrics` call on the pairing invariant: it grows
by one exactly on a timestamped send-marker line. -/
theorem updateMetrics_pairInv (cfg : Config) (sensorType line : String) (u : UpdSt) :
    pairInv (updateMetrics cfg sensorType line u) =
      pairInv u +
        (if (parseLineTime (trimLeftWS line)).isSome &&
            strContains (lowerStr (trimLeftWS line)) "snd:" then 1 else 0) := by
  simp only [updateMetrics]
  rw [stepPayload_pairInv, stepRcv_pairInv, stepSnd_pairInv, stepNoResp_pairInv,
    stepTimeout_pairInv, stepCounters_pairInv]

/-- Over the gated per-line loop, the pairing invariant counts exactly the
send events of the line list. -/
theorem processLines_pairInv (cfg : Config) (dp sensorType : String)
    (lines : List String) (u : UpdSt) :
    pairInv (processLines cfg dp sensorType lines u) =
      pairInv u + lines.countP (sendEvent dp) := by
  induction lines generalizing u with
  | nil => simp [processLines]
  | cons l rest ih =>
      have hstep : processLines cfg dp sensorType (l :: rest) u =
          processLines cfg dp sensorType rest
            (if List.isPrefixOf dp.toList (trimLeftWS l).toList then
              updateMetrics cfg sensorType (trimLeftWS l) u
            else u) := by
        simp only [processLines, List.foldl_cons]
      rw [hstep, ih, List.countP_cons]
      by_cases hg : List.isPrefixOf dp.toList (trimLeftWS l).toList
      · rw [if_pos hg, updateMetrics_pairInv, trimLeftWS_idem]
        have hg' : dp.data.isPrefixOf (trimLeftWS l).data = true := hg
        have hse : sendEvent dp l =
            ((parseLineTime (trimLeftWS l)).isSome &&
              strContains (lowerStr (trimLeftWS l)) "snd:") := by
          simp [sendEvent, hg']
        rw [hse]
        split_ifs <;> simp_all <;> omega
      · rw [if_neg hg]
        have hg' : dp.data.isPrefixOf (trimLeftWS l).data = false := by
          cases hb : dp.data.isPrefixOf (trimLeftWS l).data
          · rfl
          · exact absurd hb hg
        have hse : sendEvent dp l = false := by
          simp [sendEvent, hg']
        rw [hse]
        simp

/-! ### Lemmas: projections through finalization -/

theorem finalizePending_missingTotal (st : SensorState) (m : Metrics) :
    (finalizePending st m).missingTotal
      = m.missingTotal + (if st.hasPending then 1 else 0) := by
  simp only [finalizePending]; split_ifs <;> simp

theorem finalizePending_pairsTotal (st : SensorState) (m : Metrics) :
    (finalizePending st m).pairsTotal = m.pairsTotal := by
  simp only [finalizePending]; split_ifs <;> rfl

theorem finalizePending_totalPayloads (st : SensorState) (m : Metrics) :
    (finalizePending st m).totalPayloads = m.totalPayloads := by
  simp only [finalizePending]; split_ifs <;> rfl

theorem finalizePending_uniquePayloads (st : SensorState) (m : Metrics) :
    (finalizePending st m).uniquePayloads = m.uniquePayloads := by
  simp only [finalizePending]; split_ifs <;> rfl

theorem finalizePending_lastRcvAt (st : SensorState) (m : Metrics) :
    (finalizePending st m).lastRcvAt
      = (if st.lastRcvAt ≠ timeZero then some st.lastRcvAt else m.lastRcvAt) := by
  simp only [finalizePending]; split_ifs <;> rfl

theorem finalizePending_timeRange (st : SensorState) (m : Metrics) :
    (finalizePending st m).timeRange = m.timeRange := by
  simp only [finalizePending]; split_ifs <;> rfl

theorem finalizeRange_missingTotal (st : SensorState) (m : Metrics) (e : Examples) :
    (finalizeRange st m e).1.missingTotal = m.missingTotal := by
  simp only [finalizeRange]; split_ifs <;> rfl

theorem finalizeRange_pairsTotal (st : SensorState) (m : Metrics) (e : Examples) :
    (finalizeRange st m e).1.pairsTotal = m.pairsTotal := by
  simp only [finalizeRange]; split_ifs <;> rfl

theorem finalizeRange_totalPayloads (st : SensorState) (m : Metrics) (e : Examples) :
    (finalizeRange st m e).1.totalPayloads = m.totalPayloads := by
  simp only [finalizeRange]; split_ifs <;> rfl

theorem finalizeRange_uniquePayloads (st : SensorState) (m : Metrics) (e : Examples) :
    (finalizeRange st m e).1.uniquePayloads = m.uniquePayloads := by
  simp only [finalizeRange]; split_ifs <;> rfl

theorem finalizeRange_lastRcvAt (st : SensorState) (m : Metrics) (e : Examples) :
    (finalizeRange st m e).1.lastRcvAt = m.lastRcvAt := by
  simp only [finalizeRange]; split_ifs <;> rfl

theorem finalizeRange_timeRange (st : SensorState) (m : Metrics) (e : Examples) :
    (finalizeRange st m e).1.timeRange
      = (if st.hasTimeRange then some (st.timeRangeStart, st.timeRangeEnd)
         else m.timeRange) := by
  simp only [finalizeRange]; split_ifs <;> rfl

theorem finalizeRange_note (st : SensorState) (m : Metrics) (e : Examples) :
    (finalizeRange st m e).2.note
      = (if st.hasTimeRange then e.note
         else if e.note = "" then "no timestamps found for date" else e.note) := by
  simp only [finalizeRange]; split_ifs <;> rfl

theorem finalizeStats_metrics (st : SensorState) (counts : List (String × Nat))
    (cfg : Config) (m : Metrics) (e : Examples) :
    (finalizeStats st counts cfg m e).1.missingTotal = m.missingTotal ∧
    (finalizeStats st counts cfg m e).1.pairsTotal = m.pairsTotal ∧
    (finalizeStats st counts cfg m e).1.totalPayloads = m.totalPayloads ∧
    (finalizeStats st counts cfg m e).1.uniquePayloads = m.uniquePayloads ∧
    (finalizeStats st counts cfg m e).1.lastRcvAt = m.lastRcvAt ∧
    (finalizeStats st counts cfg m e).1.timeRange = m.timeRange ∧
    (finalizeStats st counts cfg m e).1.uniqueRatioPct
      = calculateRatio m.uniquePayloads m.totalPayloads ∧
    (finalizeStats st counts cfg m e).2.note = e.note :=
  ⟨rfl, rfl, rfl, rfl, rfl, rfl, rfl, rfl⟩

theorem finalizeWLS_metrics (st : SensorState) (m : Metrics) :
    (finalizeWLS st m).missingTotal = m.missingTotal ∧
    (finalizeWLS st m).pairsTotal = m.pairsTotal ∧
    (finalizeWLS st m).totalPayloads = m.totalPayloads ∧
    (finalizeWLS st m).uniquePayloads = m.uniquePayloads ∧
    (finalizeWLS st m).lastRcvAt = m.lastRcvAt ∧
    (finalizeWLS st m).timeRange = m.timeRange ∧
    (finalizeWLS st m).uniqueRatioPct = m.uniqueRatioPct := by
  simp only [finalizeWLS]; split_ifs <;> exact ⟨rfl, rfl, rfl, rfl, rfl, rfl, rfl⟩

theorem finalizeNotes_note (m : Metrics) (e : Examples) :
    (finalizeNotes m e).note
      = (if m.totalPayloads = 0 ∧ e.note = "" then "no payload for date"
         else if m.pairsTotal = 0 ∧ m.lastRcvAt = none ∧ e.note = "" then
           "no rcv events found for date; cannot compute response time"
         else e.note) := by
  simp only [finalizeNotes]
  split_ifs <;> simp_all

theorem finalizeMetrics_missingTotal (m : Metrics) (e : Examples) (st : SensorState)
    (counts : List (String × Nat)) (cfg : Config) :
    (finalizeMetrics m e st counts cfg).1.missingTotal
      = m.missingTotal + (if st.hasPending then 1 else 0) := by
  simp only [finalizeMetrics]
  rw [(finalizeWLS_metrics _ _).1, (finalizeStats_metrics _ _ _ _ _).1,
    finalizeRange_missingTotal, finalizePending_missingTotal]

theorem finalizeMetrics_pairsTotal (m : Metrics) (e : Examples) (st : SensorState)
    (counts : List (String × Nat)) (cfg : Config) :
    (finalizeMetrics m e st counts cfg).1.pairsTotal = m.pairsTotal := by
  simp only [finalizeMetrics]
  rw [(finalizeWLS_metrics _ _).2.1, (finalizeStats_metrics _ _ _ _ _).2.1,
    finalizeRange_pairsTotal, finalizePending_pairsTotal]

/-! ### Lemmas: per-step component projections -/

@[simp] theorem stepCounters_state (cfg : Config) (sensorType : String) (u : UpdSt) :
    (stepCounters cfg sensorType u).state = u.state := rfl

theorem stepCounters_lines (cfg : Config) (sensorType : String) (u : UpdSt) :
    (stepCounters cfg sensorType u).metrics.lines = u.metrics.lines + 1 := by
  simp only [stepCounters]; split_ifs <;> rfl

theorem stepCounters_pairFields (cfg : Config) (sensorType : String) (u : UpdSt) :
    (stepCounters cfg sensorType u).metrics.pairsTotal = u.metrics.pairsTotal ∧
    (stepCounters cfg sensorType u).metrics.delayedSamples = u.metrics.delayedSamples := by
  simp only [stepCounters]; split_ifs <;> exact ⟨rfl, rfl⟩

@[simp] theorem stepTimeout_state (line lower : String) (u : UpdSt) :
    (stepTimeout line lower u).state = u.state := by
  simp only [stepTimeout]; split_ifs <;> rfl

theorem stepTimeout_pairFields (line lower : String) (u : UpdSt) :
    (stepTimeout line lower u).metrics.pairsTotal = u.metrics.pairsTotal ∧
    (stepTimeout line lower u).metrics.delayedSamples = u.metrics.delayedSamples ∧
    (stepTimeout line lower u).metrics.lines = u.metrics.lines := by
  simp only [stepTimeout]; split_ifs <;> exact ⟨rfl, rfl, rfl⟩

@[simp] theorem stepNoResp_state (line : String) (u : UpdSt) :
    (stepNoResp line u).state = u.state := by
  simp only [stepNoResp]; split_ifs <;> rfl

theorem stepNoResp_pairFields (line : String) (u : UpdSt) :
    (stepNoResp line u).metrics.pairsTotal = u.metrics.pairsTotal ∧
    (stepNoResp line u).metrics.delayedSamples = u.metrics.delayedSamples ∧
    (stepNoResp line u).metrics.lines = u.metrics.lines := by
  simp only [stepNoResp]; split_ifs <;> exact ⟨rfl, rfl, rfl⟩

theorem stepSnd_no_marker (t? : Option Int) (lower : String) (u : UpdSt)
    (h : strContains lower "snd:" = false) : stepSnd t? lower u = u := by
  cases t? with
  | none => rfl
  | some t => simp [stepSnd, h]

/-- A timestamped receive while a send is pending: one pairing, the exact
latency sample, and a delayed sample precisely under the threshold-or-gap
condition. -/
theorem stepRcv_paired (cfg : Config) (sensorType : String) (t : Int) (lower : String)
    (u : UpdSt) (hr : strContains lower "rcv:" = true)
    (hp : u.state.hasPending = true) :
    (stepRcv cfg sensorType (some t) lower u).metrics.pairsTotal
      = u.metrics.pairsTotal + 1 ∧
    (stepRcv cfg sensorType (some t) lower u).state.latencies
      = u.state.latencies ++ [t - u.state.pendingSentAt] ∧
    (stepRcv cfg sensorType (some t) lower u).metrics.delayedSamples
      = u.metrics.delayedSamples +
        (if t - u.state.pendingSentAt ≥ delayThresholdMs cfg sensorType ∨
            (u.metrics.lines : Int) - u.state.pendingLine > cfg.delayMaxGapLines
         then 1 else 0) := by
  simp only [stepRcv, hr, if_true]
  have h1 := updateTimeRange_hasPending { u.state with eventCount := u.state.eventCount + 1 } t
  have h2 := updateTimeRange_pendingSentAt { u.state with eventCount := u.state.eventCount + 1 } t
  have h3 := updateTimeRange_pendingLine { u.state with eventCount := u.state.eventCount + 1 } t
  have h4 := updateTimeRange_latencies { u.state with eventCount := u.state.eventCount + 1 } t
  simp only at h1 h2 h3 h4
  simp only [h1, h2, h3, h4, hp, if_true]
  split_ifs <;> simp_all

theorem stepPayload_pairFields (cfg : Config) (sensorType line trimmed : String) (u : UpdSt) :
    (stepPayload cfg sensorType line trimmed u).metrics.pairsTotal = u.metrics.pairsTotal ∧
    (stepPayload cfg sensorType line trimmed u).metrics.delayedSamples
      = u.metrics.delayedSamples ∧
    (stepPayload cfg sensorType line trimmed u).state.latencies = u.state.latencies := by
  cases h : extractPayload trimmed with
  | none => simp [stepPayload, h]
  | some p =>
      simp only [stepPayload, h, stepWLS_latencies]
      split_ifs <;> exact ⟨rfl, rfl, by simp⟩

/-! ### Claim C3 -/

/-- C3: every send event (a date-matching line carrying a parseable
timestamp and the send marker) is accounted exactly once: it either pairs
with a receive (`pairsTotal`) or is counted missing (`missingTotal`) —
when overwritten by a later send, or at end of stream while still pending.
Hence over any line list, missing + paired equals the number of send
events, i.e. every never-answered send contributes exactly one
missing-response event and every paired send contributes none. -/
theorem c3_missing_response_accounting (lines : List String) (dp sensorType : String)
    (cfg : Config) :
    (analyzeLines lines dp sensorType cfg).1.missingTotal
      + (analyzeLines lines dp sensorType cfg).1.pairsTotal
      = lines.countP (sendEvent dp) := by
  simp only [analyzeLines]
  rw [finalizeMetrics_missingTotal, finalizeMetrics_pairsTotal]
  have h := processLines_pairInv (withDefaultThresholds cfg) dp sensorType lines {}
  have h0 : pairInv ({} : UpdSt) = 0 := rfl
  rw [h0] at h
  simp only [pairInv] at h
  split_ifs at h ⊢ <;> omega

/-! ### Claim C4 -/

/-- C4: a receive line with a parseable timestamp arriving while a send is
pending (and not itself carrying a send marker, which would first overwrite
the pending send) increments paired-total by one, records latency equal to
receive time minus send time in whole milliseconds, and counts a delayed
sample if and only if that latency reaches the effective per-sensor-type
threshold or the line distance (current line number minus the pending
line number) exceeds the configured maximum gap. -/
theorem c4_receive_pairing (cfg : Config) (sensorType line : String) (u : UpdSt) (t : Int)
    (hpend : u.state.hasPending = true)
    (ht : parseLineTime (trimLeftWS line) = some t)
    (hrcv : strContains (lowerStr (trimLeftWS line)) "rcv:" = true)
    (hsnd : strContains (lowerStr (trimLeftWS line)) "snd:" = false) :
    (updateMetrics cfg sensorType line u).metrics.pairsTotal
      = u.metrics.pairsTotal + 1 ∧
    (updateMetrics cfg sensorType line u).state.latencies
      = u.state.latencies ++ [t - u.state.pendingSentAt] ∧
    (updateMetrics cfg sensorType line u).metrics.delayedSamples
      = u.metrics.delayedSamples +
        (if t - u.state.pendingSentAt ≥ delayThresholdMs cfg sensorType ∨
            ((u.metrics.lines : Int) + 1) - u.state.pendingLine > cfg.delayMaxGapLines
         then 1 else 0) := by
  simp only [updateMetrics, ht]
  rw [stepSnd_no_marker _ _ _ hsnd]
  have hstate : (stepNoResp line (stepTimeout line (lowerStr (trimLeftWS line))
      (stepCounters cfg sensorType u))).state = u.state := by
    simp
  have hlines : (stepNoResp line (stepTimeout line (lowerStr (trimLeftWS line))
      (stepCounters cfg sensorType u))).metrics.lines = u.metrics.lines + 1 := by
    rw [(stepNoResp_pairFields _ _).2.2, (stepTimeout_pairFields _ _ _).2.2,
      stepCounters_lines]
  have hpairs : (stepNoResp line (stepTimeout line (lowerStr (trimLeftWS line))
      (stepCounters cfg sensorType u))).metrics.pairsTotal = u.metrics.pairsTotal := by
    rw [(stepNoResp_pairFields _ _).1, (stepTimeout_pairFields _ _ _).1,
      (stepCounters_pairFields _ _ _).1]
  have hdel : (stepNoResp line (stepTimeout line (lowerStr (trimLeftWS line))
      (stepCounters cfg sensorType u))).metrics.delayedSamples
      = u.metrics.delayedSamples := by
    rw [(stepNoResp_pairFields _ _).2.1, (stepTimeout_pairFields _ _ _).2.1,
      (stepCounters_pairFields _ _ _).2]
  have hr := stepRcv_paired cfg sensorType t (lowerStr (trimLeftWS line))
    (stepNoResp line (stepTimeout line (lowerStr (trimLeftWS line))
      (stepCounters cfg sensorType u))) hrcv (by rw [hstate]; exact hpend)
  have hpf := stepPayload_pairFields cfg sensorType line (trimLeftWS line)
    (stepRcv cfg sensorType (some t) (lowerStr (trimLeftWS line))
      (stepNoResp line (stepTimeout line (lowerStr (trimLeftWS line))
        (stepCounters cfg sensorType u))))
  refine ⟨?_, ?_, ?_⟩
  · rw [hpf.1, hr.1, hpairs]
  · rw [hpf.2.2, hr.2.1, hstate]
  · rw [hpf.2.1, hr.2.2, hdel, hstate, hlines]
    push_cast
    rfl

/-- C4, witness: a pending send opened at time `T` and line 1, answered on
line 2 at `T + 1000` ms, yields one pairing with latency 1000 ms and no
delayed sample under the 2000 ms / 5-line defaults. -/
theorem c4_receive_pairing_witness :
    (updateMetrics { delayThresholdMs := 2000, delayMaxGapLines := 5 } "GATE"
      "2026-01-19 00:00:02.000 rcv: (01)"
      { metrics := { lines := 1 },
        state := { hasPending := true, pendingSentAt := 63930816001000,
                   pendingLine := 1 } }).metrics.pairsTotal = 1 ∧
    (updateMetrics { delayThresholdMs := 2000, delayMaxGapLines := 5 } "GATE"
      "2026-01-19 00:00:02.000 rcv: (01)"
      { metrics := { lines := 1 },
        state := { hasPending := true, pendingSentAt := 63930816001000,
                   pendingLine := 1 } }).state.latencies = [1000] ∧
    (updateMetrics { delayThresholdMs := 2000, delayMaxGapLines := 5 } "GATE"
      "2026-01-19 00:00:02.000 rcv: (01)"
      { metrics := { lines := 1 },
        state := { hasPending := true, pendingSentAt := 63930816001000,
                   pendingLine := 1 } }).metrics.delayedSamples = 0 := by
  have h := c4_receive_pairing { delayThresholdMs := 2000, delayMaxGapLines := 5 } "GATE"
    "2026-01-19 00:00:02.000 rcv: (01)"
    { metrics := { lines := 1 },
      state := { hasPending := true, pendingSentAt := 63930816001000, pendingLine := 1 } }
    63930816002000 (by decide) (by decide) (by decide) (by decide)
  refine ⟨h.1.trans (by decide), h.2.1.trans (by decide), h.2.2.trans (by decide)⟩

/-! ### Claim C5 -/

/-- C5, counterexample: the claim says that with lines but no observed
timestamps the reported range is a full-day estimate (00:00:00–23:59:59 of
the target date) plus a note, and that with no lines a separate "no data"
note is attached.  The code does neither: with one matching line and no
parseable timestamp the finalized time range is empty (not a full-day
estimate), and with no lines at all the attached note is the same
"no timestamps found for date" — no "no data" note exists anywhere. -/
theorem c5_no_fullday_estimate :
    ((analyzeLines ["2026-01-19 zero"] "2026-01-19" "GATE" {}).1.timeRange = none) ∧
    ((analyzeLines ["2026-01-19 zero"] "2026-01-19" "GATE" {}).2.note
      = "no timestamps found for date") ∧
    ((analyzeLines ([] : List String) "2026-01-19" "GATE" {}).2.note
      = "no timestamps found for date") :=
  ⟨by decide, by decide, by decide⟩

/-- C5, amended: at finalization, when no time range was collected (no
timestamped snd/rcv event was seen) and no earlier note exists, the covered
time range is left exactly as it was — never populated with a full-day
estimate derived from the target date — and the note
"no timestamps found for date" is attached; a sensor with no lines at all
receives this same note, there being no separate "no data" note. -/
theorem c5_no_timestamps_finalization (m : Metrics) (e : Examples) (st : SensorState)
    (counts : List (String × Nat)) (cfg : Config)
    (hr : st.hasTimeRange = false) (he : e.note = "") :
    (finalizeMetrics m e st counts cfg).1.timeRange = m.timeRange ∧
    (finalizeMetrics m e st counts cfg).2.note = "no timestamps found for date" := by
  have hnote : (finalizeRange st (finalizePending st m) e).2.note
      = "no timestamps found for date" := by
    rw [finalizeRange_note, hr]
    simp [he]
  constructor
  · simp only [finalizeMetrics]
    rw [(finalizeWLS_metrics _ _).2.2.2.2.2.1, (finalizeStats_metrics _ _ _ _ _).2.2.2.2.2.1,
      finalizeRange_timeRange, hr]
    simp [finalizePending_timeRange]
  · simp only [finalizeMetrics]
    rw [finalizeNotes_note, (finalizeStats_metrics _ _ _ _ _).2.2.2.2.2.2.2, hnote]
    have hne : ("no timestamps found for date" : String) ≠ "" := by decide
    simp [hne]

/-- C5, witness for the amended statement: finalizing the zero state (no
time range, empty note) leaves the range unset and attaches the
no-timestamps note. -/
theorem c5_no_timestamps_finalization_witness :
    (finalizeMetrics {} {} {} [] {}).1.timeRange = ({} : Metrics).timeRange ∧
    (finalizeMetrics {} {} {} [] {}).2.note = "no timestamps found for date" :=
  c5_no_timestamps_finalization {} {} {} [] {} (by decide) (by decide)

/-! ### Claim C6 -/

/-- C6, counterexample: the claim says every date argument that does not
parse as a calendar date is rejected; the entry point accepts "99999999"
(month 99, day 99 — not a calendar date) and normalizes it to
"9999-99-99".  Only the length is ever checked. -/
theorem c6_calendar_not_validated :
    dateAccepted "99999999" = true ∧ normalizeDate "99999999" = some "9999-99-99" :=
  ⟨by decide, by decide⟩

/-- C6, amended: the entry point rejects exactly the date arguments whose
length differs from 8 characters (the empty date is rejected by the
explicit first check, subsumed by the length test); every 8-character
string — with no calendar validation — is accepted and normalized to
the hyphenated `YYYY-MM-DD` shape obtained by reslicing its characters. -/
theorem c6_length_eight_only (date : String) :
    (dateAccepted date = true ↔ date.toList.length = 8) ∧
    (date.toList.length = 8 →
      normalizeDate date = some (String.mk (date.toList.take 4) ++ "-" ++
        String.mk ((date.toList.drop 4).take 2) ++ "-" ++
        String.mk (date.toList.drop 6))) := by
  refine ⟨⟨fun h => ?_, fun h => ?_⟩, fun h => ?_⟩
  · by_cases h0 : date = ""
    · rw [h0] at h
      exact absurd h (by decide)
    · rw [dateAccepted, if_neg h0, normalizeDate] at h
      by_cases hl : date.toList.length ≠ 8
      · rw [if_pos hl] at h
        exact absurd h (by decide)
      · exact not_ne_iff.mp hl
  · have h0 : date ≠ "" := by
      intro he
      rw [he] at h
      exact absurd h (by decide)
    rw [dateAccepted, if_neg h0, normalizeDate, if_neg (by simpa using h)]
    rfl
  · rw [normalizeDate, if_neg (by simpa using h)]

/-- C6, witness for the amended statement at the accepted date "20260119". -/
theorem c6_length_eight_only_witness :
    dateAccepted "20260119" = true ∧
    normalizeDate "20260119" = some (String.mk ("20260119".toList.take 4) ++ "-" ++
      String.mk (("20260119".toList.drop 4).take 2) ++ "-" ++
      String.mk ("20260119".toList.drop 6)) :=
  ⟨(c6_length_eight_only "20260119").1.mpr (by decide),
   (c6_length_eight_only "20260119").2 (by decide)⟩

/-! ### Lemmas: the top-duplicate fold -/

theorem topDup_foldl_const (l : List (String × Nat)) (acc : String × Nat)
    (hall : ∀ e ∈ l, e.2 ≤ acc.2) :
    l.foldl (fun acc e => if e.2 > acc.2 then (e.1, e.2) else acc) acc = acc := by
  induction l with
  | nil => rfl
  | cons e rest ih =>
      have he : e.2 ≤ acc.2 := hall e (List.mem_cons_self _ _)
      rw [List.foldl_cons, if_neg (by omega)]
      exact ih fun e' h' => hall e' (List.mem_cons_of_mem _ h')

theorem topDup_foldl_max (p : String) (c : Nat) :
    ∀ (l : List (String × Nat)) (acc : String × Nat), acc.2 < c → (p, c) ∈ l →
      (∀ e ∈ l, e ≠ (p, c) → e.2 < c) →
      l.foldl (fun acc e => if e.2 > acc.2 then (e.1, e.2) else acc) acc = (p, c) := by
  intro l
  induction l with
  | nil => intro acc _ hm _; exact absurd hm (List.not_mem_nil _)
  | cons e rest ih =>
      intro acc hacc hm hall
      by_cases he : e = (p, c)
      · rw [List.foldl_cons, he, if_pos (show (p, c).2 > acc.2 by simpa using hacc)]
        refine topDup_foldl_const rest _ fun e' h' => ?_
        by_cases h'' : e' = (p, c)
        · rw [h'']
        · exact le_of_lt (hall e' (List.mem_cons_of_mem _ h') h'')
      · have hm' : (p, c) ∈ rest := by
          rcases List.mem_cons.mp hm with h | h
          · exact absurd h.symm he
          · exact h
        have he2 : e.2 < c := hall e (List.mem_cons_self _ _) he
        rw [List.foldl_cons]
        by_cases hgt : e.2 > acc.2
        · rw [if_pos hgt]
          exact ih (e.1, e.2) he2 hm' fun e' h' h'' =>
            hall e' (List.mem_cons_of_mem _ h') h''
        · rw [if_neg hgt]
          exact ih acc hacc hm' fun e' h' h'' =>
            hall e' (List.mem_cons_of_mem _ h') h''

/-- When one payload strictly dominates every other entry of the counts map,
`topDuplicatePayload` returns it regardless of iteration order. -/
theorem topDuplicatePayload_unique_max (l : List (String × Nat)) (p : String) (c : Nat)
    (hc : 0 < c) (hm : (p, c) ∈ l) (hall : ∀ e ∈ l, e ≠ (p, c) → e.2 < c) :
    topDuplicatePayload l = p := by
  unfold topDuplicatePayload
  rw [topDup_foldl_max p c l ("", 0) hc hm hall]

/-! ### Claim C7 -/

/-- C7, counterexample: the claim demands that two runs over identical
inputs produce summaries equal in every field, including the generation
timestamp and the reported top duplicate payload.  `GeneratedAt` is the
wall clock (`time.Now()`), so two runs at different instants differ; and
`topDuplicatePayload` ranges over a Go map, so with two payloads tied at
the maximal count the reported payload depends on the unspecified
iteration order — the same map traversed in its two orders yields "a"
and "b" respectively. -/
theorem c7_rerun_not_identical :
    (mkSummary {} "20260119" "2026-01-19T00:00:00+09:00" []
      ≠ mkSummary {} "20260119" "2026-01-19T00:00:01+09:00" []) ∧
    topDuplicatePayload [("a", 1), ("b", 1)]
      ≠ topDuplicatePayload [("b", 1), ("a", 1)] :=
  ⟨by decide, by decide⟩

/-- C7, amended: the analysis is deterministic modulo its two environment
inputs.  Two runs over the same configuration, date, and per-sensor
results agree on every summary field except `GeneratedAt`, which records
each run's wall-clock reading; and the reported top duplicate payload is
also determined — independent of map iteration order — whenever one
payload count strictly dominates all others (only ties at the maximum are
order-dependent). -/
theorem c7_determinism_modulo_environment :
    (∀ (cfg : Config) (date n1 n2 : String) (res : List SensorResult),
        { mkSummary cfg date n1 res with generatedAt := "" }
          = { mkSummary cfg date n2 res with generatedAt := "" }) ∧
    (∀ (l1 l2 : List (String × Nat)) (p : String) (c : Nat),
        l1.Perm l2 → (p, c) ∈ l1 → 0 < c → (∀ e ∈ l1, e ≠ (p, c) → e.2 < c) →
        topDuplicatePayload l1 = p ∧ topDuplicatePayload l2 = p) := by
  constructor
  · intro cfg date n1 n2 res
    rfl
  · intro l1 l2 p c hperm hm hc hall
    refine ⟨topDuplicatePayload_unique_max l1 p c hc hm hall,
      topDuplicatePayload_unique_max l2 p c hc (hperm.mem_iff.mp hm) ?_⟩
    exact fun e he => hall e (hperm.mem_iff.mpr he)

/-- C7, witness: two runs with different clock readings agree on everything
but `GeneratedAt`, and the unique-maximum payload "a" is reported under
both iteration orders of the same two-entry map. -/
theorem c7_determinism_witness :
    ({ mkSummary {} "20260119" "A" [] with generatedAt := "" }
      = { mkSummary {} "20260119" "B" [] with generatedAt := "" }) ∧
    topDuplicatePayload [("a", 2), ("b", 1)] = "a" ∧
    topDuplicatePayload [("b", 1), ("a", 2)] = "a" := by
  have h1 := c7_determinism_modulo_environment.1 {} "20260119" "A" "B" []
  have h2 := c7_determinism_modulo_environment.2 [("a", 2), ("b", 1)] [("b", 1), ("a", 2)]
    "a" 2 (by decide) (by decide) (by decide) (by decide)
  exact ⟨h1, h2.1, h2.2⟩

/-! ### Claim C8 -/

theorem finalizeMetrics_ratio (m : Metrics) (e : Examples) (st : SensorState)
    (counts : List (String × Nat)) (cfg : Config) :
    (finalizeMetrics m e st counts cfg).1.uniqueRatioPct
      = calculateRatio m.uniquePayloads m.totalPayloads ∧
    (finalizeMetrics m e st counts cfg).1.totalPayloads = m.totalPayloads ∧
    (finalizeMetrics m e st counts cfg).1.uniquePayloads = m.uniquePayloads := by
  simp only [finalizeMetrics]
  refine ⟨?_, ?_, ?_⟩
  · rw [(finalizeWLS_metrics _ _).2.2.2.2.2.2,
      (finalizeStats_metrics _ _ _ _ _).2.2.2.2.2.2.1,
      finalizeRange_uniquePayloads, finalizeRange_totalPayloads,
      finalizePending_uniquePayloads, finalizePending_totalPayloads]
  · rw [(finalizeWLS_metrics _ _).2.2.1, (finalizeStats_metrics _ _ _ _ _).2.2.1,
      finalizeRange_totalPayloads, finalizePending_totalPayloads]
  · rw [(finalizeWLS_metrics _ _).2.2.2.1, (finalizeStats_metrics _ _ _ _ _).2.2.2.1,
      finalizeRange_uniquePayloads, finalizePending_uniquePayloads]

/-- C8: the unique-payload ratio of a finalized sensor is absent precisely
when the total payload count for the date is zero, and whenever present it
equals unique ÷ total × 100 over the observed counts (the Go `float64`
arithmetic is modelled exactly in `ℚ`). -/
theorem c8_unique_ratio (lines : List String) (dp sensorType : String) (cfg : Config) :
    ((analyzeLines lines dp sensorType cfg).1.uniqueRatioPct = none
      ↔ (analyzeLines lines dp sensorType cfg).1.totalPayloads = 0) ∧
    ((analyzeLines lines dp sensorType cfg).1.totalPayloads ≠ 0 →
      (analyzeLines lines dp sensorType cfg).1.uniqueRatioPct
        = some (((analyzeLines lines dp sensorType cfg).1.uniquePayloads : ℚ)
            / ((analyzeLines lines dp sensorType cfg).1.totalPayloads : ℚ) * 100)) := by
  simp only [analyzeLines]
  obtain ⟨h1, h2, h3⟩ := finalizeMetrics_ratio
    (processLines (withDefaultThresholds cfg) dp sensorType lines {}).metrics
    (processLines (withDefaultThresholds cfg) dp sensorType lines {}).examples
    (processLines (withDefaultThresholds cfg) dp sensorType lines {}).state
    (processLines (withDefaultThresholds cfg) dp sensorType lines {}).counts
    (withDefaultThresholds cfg)
  rw [h1, h2, h3]
  unfold calculateRatio
  constructor
  · split_ifs with h <;> simp [h]
  · intro h
    rw [if_neg h]

/-- C8, witness: one payload line gives total = 1 and the ratio present with
the stated value. -/
theorem c8_unique_ratio_witness :
    (analyzeLines ["2026-01-19 00:00:01.000 rcv: (01)"] "2026-01-19" "GATE"
      {}).1.uniqueRatioPct
      = some (((analyzeLines ["2026-01-19 00:00:01.000 rcv: (01)"] "2026-01-19" "GATE"
            {}).1.uniquePayloads : ℚ)
          / ((analyzeLines ["2026-01-19 00:00:01.000 rcv: (01)"] "2026-01-19" "GATE"
            {}).1.totalPayloads : ℚ) * 100) :=
  (c8_unique_ratio ["2026-01-19 00:00:01.000 rcv: (01)"] "2026-01-19" "GATE" {}).2
    (by decide)

/-! ### Claim C10 -/

/-- C10: a finalized sensor carries at most one note, chosen by a fixed
precedence over the single `note` field, each later condition firing only
when the field is still empty: no collected time range ⇒
"no timestamps found for date"; otherwise zero payloads ⇒
"no payload for date"; otherwise no pairings and no receive timestamp ⇒
"no rcv events found for date; cannot compute response time"; otherwise no
note.  The hypotheses state the pipeline facts that the note field and the
published last-receive field are empty before finalization. -/
theorem c10_note_precedence (m : Metrics) (e : Examples) (st : SensorState)
    (counts : List (String × Nat)) (cfg : Config)
    (he : e.note = "") (hm : m.lastRcvAt = none) :
    (finalizeMetrics m e st counts cfg).2.note
      = (if st.hasTimeRange = false then "no timestamps found for date"
         else if m.totalPayloads = 0 then "no payload for date"
         else if m.pairsTotal = 0 ∧ st.lastRcvAt = timeZero then
           "no rcv events found for date; cannot compute response time"
         else "") := by
  simp only [finalizeMetrics]
  rw [finalizeNotes_note, (finalizeStats_metrics _ _ _ _ _).2.2.2.2.2.2.2,
    finalizeRange_note, (finalizeWLS_metrics _ _).2.2.1,
    (finalizeStats_metrics _ _ _ _ _).2.2.1, finalizeRange_totalPayloads,
    finalizePending_totalPayloads, (finalizeWLS_metrics _ _).2.1,
    (finalizeStats_metrics _ _ _ _ _).2.1, finalizeRange_pairsTotal,
    finalizePending_pairsTotal, (finalizeWLS_metrics _ _).2.2.2.2.1,
    (finalizeStats_metrics _ _ _ _ _).2.2.2.2.1, finalizeRange_lastRcvAt,
    finalizePending_lastRcvAt]
  by_cases hr : st.hasTimeRange <;>
    by_cases hz : st.lastRcvAt = timeZero <;>
      simp [hr, hz, he, hm]

/-- C10, witness: the zero state finalizes to the first note of the
precedence chain. -/
theorem c10_note_precedence_witness :
    (finalizeMetrics {} {} {} [] {}).2.note = "no timestamps found for date" :=
  (c10_note_precedence {} {} {} [] {} (by decide) (by decide)).trans (by decide)

/-! ### Claim C9 -/

theorem perSensorIssues_pos (r : SensorResult) (i : TopIssue)
    (h : i ∈ perSensorIssues r) : 0 < i.count := by
  simp only [perSensorIssues, List.mem_append] at h
  rcases h with ((h | h) | h) | h <;> split_ifs at h with hc <;> simp_all

/-- C9, counterexample: the claim wants one record per strictly positive
failure counter AND at most 5 entries; with two sensors whose eight
counters are all positive these conflict — the published list has exactly
5 entries and sensor S2's positive no-response counter (count 3, ranked
6th) has no record in it. -/
theorem c9_truncation_counterexample :
    0 < sensorB.metrics.noResponse ∧
    TopIssue.mk "no_response" "S2" sensorB.metrics.noResponse
      ∉ buildTopIssues [sensorA, sensorB] ∧
    (buildTopIssues [sensorA, sensorB]).length = 5 :=
  ⟨by decide, by decide, by decide⟩

/-- C9, amended: the pre-truncation ranking contains one
(category, sensor, count) record for every strictly positive failure
counter (timeout, no-response, zero-data, duplicates); the published list
is its 5-record prefix under the order "count descending, ties by sensor
identifier ascending", so it never exceeds 5 entries, is sorted by that
order, and every published record has a positive count drawn from an
actual counter. -/
theorem c9_top_issues (results : List SensorResult) :
    (buildTopIssues results).length ≤ 5 ∧
    List.Pairwise issueBefore (buildTopIssues results) ∧
    (∀ i ∈ buildTopIssues results,
      0 < i.count ∧ i ∈ results.flatMap perSensorIssues) ∧
    (∀ r ∈ results,
      (0 < r.metrics.timeout →
        TopIssue.mk "timeout" r.sensorID r.metrics.timeout
          ∈ List.insertionSort issueBefore (results.flatMap perSensorIssues)) ∧
      (0 < r.metrics.noResponse →
        TopIssue.mk "no_response" r.sensorID r.metrics.noResponse
          ∈ List.insertionSort issueBefore (results.flatMap perSensorIssues)) ∧
      (0 < r.metrics.zeroData →
        TopIssue.mk "zero_data" r.sensorID r.metrics.zeroData
          ∈ List.insertionSort issueBefore (results.flatMap perSensorIssues)) ∧
      (0 < r.metrics.duplicates →
        TopIssue.mk "duplicates" r.sensorID r.metrics.duplicates
          ∈ List.insertionSort issueBefore (results.flatMap perSensorIssues))) := by
  refine ⟨?_, ?_, ?_, ?_⟩
  · exact List.length_take_le 5 _
  · exact (List.sorted_insertionSort issueBefore _).sublist (List.take_sublist 5 _)
  · intro i hi
    have hi' : i ∈ List.insertionSort issueBefore (results.flatMap perSensorIssues) :=
      List.mem_of_mem_take hi
    have hi'' : i ∈ results.flatMap perSensorIssues :=
      (List.mem_insertionSort issueBefore).mp hi'
    obtain ⟨r, _, hmem⟩ := List.mem_flatMap.mp hi''
    exact ⟨perSensorIssues_pos r i hmem, hi''⟩
  · intro r hr
    refine ⟨fun h => ?_, fun h => ?_, fun h => ?_, fun h => ?_⟩ <;>
      exact (List.mem_insertionSort issueBefore).mpr
        (List.mem_flatMap.mpr ⟨r, hr, by simp [perSensorIssues, h]⟩)

/-- C9, witness for the amended statement: one sensor with all counters
positive — the published list has at most 5 entries, and the timeout record
is present before truncation. -/
theorem c9_top_issues_witness :
    (buildTopIssues [sensorA]).length ≤ 5 ∧
    TopIssue.mk "timeout" "S1" sensorA.metrics.timeout
      ∈ List.insertionSort issueBefore ([sensorA].flatMap perSensorIssues) := by
  refine ⟨(c9_top_issues [sensorA]).1, ?_⟩
  have h := ((c9_top_issues [sensorA]).2.2.2 sensorA (by decide)).1 (by decide)
  simpa [sensorA] using h

end Analyzer
